import Mathlib

/-!
# Verification of the DotSense adaptive learning engine

Shallow embedding of `src/Frontend/src/utils/learningCalculations.js` (with the
constants of `learningConstants.js`) over exact rationals, together with proofs
of the specification's claims about it.

Embedding conventions, used uniformly below:

* JS numbers are embedded as `ℚ` (counters as `ℤ`); all arithmetic is exact.
* A numeric record field that may be absent (`undefined`) in JS is embedded as a
  plain field where the value `0` plays the role of every falsy value: in the
  source every such field is only ever inspected through `x || default` or
  `if (x)`, and `undefined` and `0` behave identically there.  Consequently a
  guard `stats.f && …` becomes `stats.f ≠ 0 ∧ …`, and `stats.f || d` becomes
  `if stats.f ≠ 0 then stats.f else d`.  For a numeric field `x`, `x || 0` is
  the identity under this convention and is dropped.
* String-valued optional fields use `""` for absent.
* `Date.now() / 1000` (the current Unix time in seconds read from the clock at
  call time) is passed as an explicit `now : ℚ` argument to the functions that
  read it (`calculateRetentionProbability`, `calculateSelectionPriority`).
* The `if (!stats) return …` null-record guards are omitted: records here are
  always present (a `LetterStats` structure value).
* `Math.round` (round half towards `+∞`) is `jsRound`, `Math.min`/`Math.max`
  are `min`/`max` on `ℚ`.
* `Math.sqrt` is `Rat.sqrt`, which is exact on every rational whose square
  root is rational (this covers every concrete evaluation appearing below) and
  otherwise a deterministic non-negative approximation; no theorem below
  depends on its value elsewhere, only on its non-negativity.
* `Math.exp` is transcendental and has no exact rational semantics; it is
  embedded as `jsExp`, a computable positive stand-in agreeing with `exp` at
  `0` and monotone like it.  Every theorem below is insensitive to its value:
  the source clamps the result of the only `Math.exp` call into `[0,1]`, and
  only that clamped range is ever used.
-/

namespace DotSense

/-- JS `Math.round`: round half towards positive infinity. -/
def jsRound (q : ℚ) : ℤ := ⌊q + 1/2⌋

/-- `Math.round(q * 1000) / 1000`: the source's rounding to 3 decimal places. -/
def round3 (q : ℚ) : ℚ := (jsRound (q * 1000) : ℚ) / 1000

/-- Computable stand-in for `Math.exp` (see the module docstring): positive,
equal to `1` at `0`, increasing, `≤ 1` on non-positive inputs and `≥ 1` on
non-negative ones — the only facts about `Math.exp` the source's behaviour
visible to the claims depends on, and in fact every theorem below uses only
the `[0,1]` clamp that the source wraps around its one `Math.exp` call. -/
def jsExp (x : ℚ) : ℚ := if 0 ≤ x then 1 + x else 1 / (1 - x)

/-! ## Constants (`learningConstants.js`, `LEARNING_CONSTANTS`) -/

def MAX_RESPONSE_TIME : ℚ := 6
def MASTERY_HIGH : ℚ := 0.85
def MASTERY_MID : ℚ := 0.6
def MIN_ATTEMPTS_FOR_MASTERY : ℤ := 5
def CONFIDENCE_Z_SCORE : ℚ := 1.96
def TREND_THRESHOLD_IMPROVING : ℚ := 0.15
def TREND_THRESHOLD_DECLINING : ℚ := -0.15

/-! ## Data model

One per-letter statistics record.  Defaults are the absent/falsy encodings of
the conventions above, so `{ attempts := 10, … }` denotes a JS object whose
remaining fields are absent. -/

structure LetterStats where
  letter : String := ""
  attempts : ℤ := 0
  correct : ℤ := 0
  avg_response_time : ℚ := 0
  streak : ℤ := 0
  recent_results : List Bool := []
  last_seen : ℚ := 0
  easiness_factor : ℚ := 0
  repetition : ℤ := 0
  next_review : ℚ := 0
  retention : ℚ := 0
  difficulty : ℚ := 0
  trend : String := ""
  mastery_level : String := ""
deriving DecidableEq

/-- Result record of `calculateConfidenceInterval`. -/
structure ConfidenceInterval where
  lower : ℚ
  upper : ℚ
deriving DecidableEq

/-! ## Scoring engine (`learningCalculations.js`) -/

/-- `calculateAccuracy` (lines 13–16). -/
def calculateAccuracy (stats : LetterStats) : ℚ :=
  if stats.attempts = 0 then 0
  else min 1 (max 0 ((stats.correct : ℚ) / (stats.attempts : ℚ)))

/-- `calculateSpeedScore` (lines 23–27). -/
def calculateSpeedScore (avgResponseTime : ℚ) : ℚ :=
  if MAX_RESPONSE_TIME ≤ 0 ∨ avgResponseTime < 0 then 0
  else max 0 (1 - avgResponseTime / MAX_RESPONSE_TIME)

/-- `calculateStreakBonus` (lines 34–36). -/
def calculateStreakBonus (streak : ℤ) : ℚ :=
  min 0.1 ((streak : ℚ) * 0.02)

/-- The count of `true` entries of a list of booleans:
`l.reduce((a, b) => a + (b ? 1 : 0), 0)` in the source. -/
def countTrue (l : List Bool) : ℕ := (l.filter id).length

/-- The Bernoulli variance of a window of results around its mean
(`variance` of lines 47–48, with `mean = countTrue recent / recent.length`). -/
def windowVariance (recent : List Bool) : ℚ :=
  ((recent.map
      (fun x => ((if x then (1 : ℚ) else 0) - (countTrue recent : ℚ) / (recent.length : ℚ)) ^ 2)).sum) /
    (recent.length : ℚ)

/-- `calculateConsistencyBonus` (lines 43–53).  `slice(-10)` keeps the last
(up to) ten entries, which is `drop (length - 10)`;
`consistency = max(0, 1 - variance * 4)` and the bonus is `consistency * 0.05`. -/
def calculateConsistencyBonus (recentResults : List Bool) : ℚ :=
  if recentResults.length < 5 then 0
  else
    max 0 (1 - windowVariance (recentResults.drop (recentResults.length - 10)) * 4) * 0.05

/-- The `baseScore` of `calculateSkillScore` (line 68). -/
def baseScore (stats : LetterStats) : ℚ :=
  0.6 * calculateAccuracy stats + 0.25 * calculateSpeedScore stats.avg_response_time +
    calculateStreakBonus stats.streak + calculateConsistencyBonus stats.recent_results

/-- `calculateSkillScore` (lines 60–70). -/
def calculateSkillScore (stats : LetterStats) : ℚ :=
  if stats.attempts = 0 then 0
  else round3 (min 1 (baseScore stats))

/-- `calculateMasteryLevel` (lines 77–89). -/
def calculateMasteryLevel (stats : LetterStats) : String :=
  if stats.attempts < MIN_ATTEMPTS_FOR_MASTERY then "learning"
  else
    let score := calculateSkillScore stats
    if MASTERY_HIGH ≤ score then "mastered"
    else if MASTERY_MID ≤ score then "learning"
    else "weak"

/-- `calculateProbabilityCorrect` (lines 96–107). -/
def calculateProbabilityCorrect (stats : LetterStats) : ℚ :=
  let correct := max 0 (stats.correct : ℚ)
  let attempts := max 0 (stats.attempts : ℚ)
  let clampedCorrect := min correct attempts
  let alpha := clampedCorrect + 1
  let beta := (attempts - clampedCorrect) + 1
  round3 (alpha / (alpha + beta))

/-- The `margin` of `calculateConfidenceInterval` (lines 119–124):
`z * Math.sqrt(Math.max(0, p*(1-p)/n))` with `p` the accuracy and `n` the
attempt count. -/
def ciMargin (stats : LetterStats) : ℚ :=
  CONFIDENCE_Z_SCORE *
    Rat.sqrt (max 0 ((calculateAccuracy stats * (1 - calculateAccuracy stats)) /
      (stats.attempts : ℚ)))

/-- `calculateConfidenceInterval` (lines 114–130). -/
def calculateConfidenceInterval (stats : LetterStats) : ConfidenceInterval :=
  if stats.attempts < 2 then ⟨0, 1⟩
  else
    ⟨round3 (max 0 (calculateAccuracy stats - ciMargin stats)),
     round3 (min 1 (calculateAccuracy stats + ciMargin stats))⟩

/-- `calculateRetentionProbability` (lines 190–200); `now` is
`Date.now() / 1000` at the moment of the call. -/
def calculateRetentionProbability (lastSeen easinessFactor : ℚ) (repetitions : ℤ)
    (now : ℚ) : ℚ :=
  let timeElapsed := now - lastSeen
  let stability := easinessFactor * ((repetitions : ℚ) + 1) * 86400
  let retention := jsExp (-timeElapsed / stability)
  min 1 (max 0 retention)

/-- `analyzePerformanceTrend` (lines 208–223). -/
def analyzePerformanceTrend (recentResults : List Bool) (overallAccuracy : ℚ) :
    String :=
  if recentResults.length < 3 then "insufficient_data"
  else
    let window := min 5 recentResults.length
    let recent := recentResults.drop (recentResults.length - window)
    let recentAccuracy : ℚ := (countTrue recent : ℚ) / (recent.length : ℚ)
    let diff := recentAccuracy - overallAccuracy
    if TREND_THRESHOLD_IMPROVING < diff then "improving"
    else if diff < TREND_THRESHOLD_DECLINING then "declining"
    else "stable"

/-! ## Priority selector (`calculateSelectionPriority`, lines 316–358)

The source accumulates `priority += …` over five independent blocks; the
embedding gives each block its own definition and the function is their sum. -/

/-- Lines 321–327: SM-2 review urgency (guard `stats.next_review && now >=
stats.next_review`). -/
def urgencyPoints (stats : LetterStats) (now : ℚ) : ℚ :=
  if stats.next_review ≠ 0 ∧ stats.next_review ≤ now then
    let overdueSeconds := now - stats.next_review
    let overdueDays := overdueSeconds / 86400
    min 30 (15 + overdueDays * 5)
  else 0

/-- Lines 330–334: `stats.retention || calculateRetentionProbability(
stats.last_seen || now, stats.easiness_factor || 2.5, stats.repetition || 0)`. -/
def retentionOf (stats : LetterStats) (now : ℚ) : ℚ :=
  if stats.retention ≠ 0 then stats.retention
  else
    calculateRetentionProbability
      (if stats.last_seen ≠ 0 then stats.last_seen else now)
      (if stats.easiness_factor ≠ 0 then stats.easiness_factor else 2.5)
      stats.repetition
      now

/-- Lines 335–337: retention deficit points. -/
def retentionPoints (stats : LetterStats) (now : ℚ) : ℚ :=
  if retentionOf stats now < 0.9 then (1 - retentionOf stats now) * 25 else 0

/-- Lines 340–344: performance-trend points. -/
def trendPoints (stats : LetterStats) : ℚ :=
  if stats.trend = "declining" then 15
  else if stats.trend = "stable" ∧ calculateAccuracy stats < MASTERY_MID then 8
  else 0

/-- Lines 347–349: difficulty-match points. -/
def difficultyPoints (stats : LetterStats) (userDifficulty : ℚ) : ℚ :=
  (1 - |(if stats.difficulty ≠ 0 then stats.difficulty else 0.5) - userDifficulty|) * 20

/-- Lines 352–355: recency points. -/
def recencyPoints (stats : LetterStats) (now : ℚ) : ℚ :=
  min 10 ((if stats.last_seen ≠ 0 then (now - stats.last_seen) / 3600 else 0) * 0.5)

/-- `calculateSelectionPriority` (lines 316–358); `now` is `Date.now() / 1000`
at the moment of the call. -/
def calculateSelectionPriority (stats : LetterStats) (userDifficulty : ℚ)
    (now : ℚ) : ℚ :=
  urgencyPoints stats now + retentionPoints stats now + trendPoints stats +
    difficultyPoints stats userDifficulty + recencyPoints stats now

/-! ## Insights aggregator (`calculateLearningInsights`, lines 430–508)

The parts the claims are about: the mastery histogram and the learning
velocity. -/

/-- `letter.mastery_level || calculateMasteryLevel(letter)` (line 456). -/
def masteryLevelOf (l : LetterStats) : String :=
  if l.mastery_level ≠ "" then l.mastery_level else calculateMasteryLevel l

/-- The mastery histogram built by lines 452–462: starting from all-zero
counters, each letter increments the counter keyed by its level, so the final
count at `level` is the number of letters classified `level`. -/
def masteryDistribution (lettersData : List LetterStats) (level : String) : ℕ :=
  (lettersData.filter (fun l => masteryLevelOf l = level)).length

/-- The `learningVelocity` field of the object returned by
`calculateLearningInsights`: `0` for the empty-input early return (line 444),
else `masteryDistribution.mastered / Math.max(1, lettersData.length)`
(line 506). -/
def learningVelocity (lettersData : List LetterStats) : ℚ :=
  if lettersData = [] then 0
  else (masteryDistribution lettersData "mastered" : ℚ) /
    max 1 (lettersData.length : ℚ)

/-! ## Concrete records used by the scenario claims and counterexamples -/

/-- Scenario 1 of the specification: `{attempts:10, correct:9,
avg_response_time:2.0, streak:3, recent_results:[true×10]}`. -/
def scenario1 : LetterStats :=
  { attempts := 10, correct := 9, avg_response_time := 2, streak := 3,
    recent_results := [true, true, true, true, true, true, true, true, true, true] }

/-- Scenario 2 of the specification: scenario 1 with `correct = 10`. -/
def scenario2 : LetterStats :=
  { attempts := 10, correct := 10, avg_response_time := 2, streak := 3,
    recent_results := [true, true, true, true, true, true, true, true, true, true] }

/-- A record whose selection priority changes as the clock advances: due for
review at Unix time `86400`, retention known (`0.95`). -/
def c4Stats : LetterStats := { next_review := 86400, retention := 0.95 }

/-- A record that has an SM-2 `next_review` equal to `0` — a falsy timestamp,
so the source's `stats.next_review &&` guard skips the urgency block. -/
def c6Stats : LetterStats := { next_review := 0 }

/-- A malformed record with a negative `streak` count. -/
def c8Stats : LetterStats :=
  { attempts := 1, correct := 0, avg_response_time := 6, streak := -1 }

/-- The confidence-interval scenario record: `attempts=100, correct=80`. -/
def ci100 : LetterStats := { attempts := 100, correct := 80 }

/-- A well-formed record used to instantiate universally quantified claims. -/
def w3 : LetterStats :=
  { attempts := 3, correct := 1, avg_response_time := 1, streak := 1,
    recent_results := [true, false, true] }

/-- A record with non-negative streak used to instantiate the amended range
claim. -/
def w8 : LetterStats := { attempts := 1, correct := 0 }

/-- A record overdue for review at Unix time `172800`, used to instantiate the
amended urgency claim. -/
def w6 : LetterStats := { next_review := 86400, retention := 0.95 }

/-! ## Evaluation and bound lemmas for the embedded primitives -/

theorem round3_eq {q : ℚ} {z : ℤ} (h1 : (z : ℚ) ≤ q * 1000 + 1/2)
    (h2 : q * 1000 + 1/2 < z + 1) : round3 q = (z : ℚ) / 1000 := by
  unfold round3 jsRound
  rw [Int.floor_eq_iff.mpr ⟨h1, h2⟩]

theorem round3_mono {a b : ℚ} (h : a ≤ b) : round3 a ≤ round3 b := by
  unfold round3 jsRound
  have hf : ⌊a * 1000 + 1/2⌋ ≤ ⌊b * 1000 + 1/2⌋ := Int.floor_le_floor (by linarith)
  have hq : ((⌊a * 1000 + 1/2⌋ : ℤ) : ℚ) ≤ ((⌊b * 1000 + 1/2⌋ : ℤ) : ℚ) := by
    exact_mod_cast hf
  linarith

theorem round3_zero : round3 0 = 0 := by
  rw [round3_eq (z := 0) (by norm_num) (by norm_num)]
  norm_num

theorem round3_one : round3 1 = 1 := by
  rw [round3_eq (z := 1000) (by norm_num) (by norm_num)]
  norm_num

theorem round3_nonneg {q : ℚ} (h : 0 ≤ q) : 0 ≤ round3 q :=
  round3_zero ▸ round3_mono h

theorem round3_le_one {q : ℚ} (h : q ≤ 1) : round3 q ≤ 1 :=
  round3_one ▸ round3_mono h

theorem calculateAccuracy_nonneg (s : LetterStats) : 0 ≤ calculateAccuracy s := by
  unfold calculateAccuracy
  split_ifs
  · exact le_refl 0
  · exact le_min (by norm_num) (le_max_left 0 _)

theorem calculateAccuracy_le_one (s : LetterStats) : calculateAccuracy s ≤ 1 := by
  unfold calculateAccuracy
  split_ifs
  · norm_num
  · exact min_le_left 1 _

theorem calculateSpeedScore_nonneg (t : ℚ) : 0 ≤ calculateSpeedScore t := by
  unfold calculateSpeedScore
  split_ifs
  · exact le_refl 0
  · exact le_max_left 0 _

theorem calculateSpeedScore_le_one (t : ℚ) : calculateSpeedScore t ≤ 1 := by
  unfold calculateSpeedScore
  split_ifs with h
  · norm_num
  · push_neg at h
    have ht : 0 ≤ t := h.2
    have : 0 ≤ t / MAX_RESPONSE_TIME := by
      unfold MAX_RESPONSE_TIME
      positivity
    exact max_le (by norm_num) (by linarith)

theorem calculateStreakBonus_le (k : ℤ) : calculateStreakBonus k ≤ 0.1 :=
  min_le_left _ _

theorem calculateStreakBonus_nonneg {k : ℤ} (h : 0 ≤ k) :
    0 ≤ calculateStreakBonus k := by
  unfold calculateStreakBonus
  have hk : (0 : ℚ) ≤ (k : ℚ) := by exact_mod_cast h
  exact le_min (by norm_num) (by nlinarith)

theorem windowVariance_nonneg (l : List Bool) : 0 ≤ windowVariance l := by
  unfold windowVariance
  apply div_nonneg _ (by positivity)
  apply List.sum_nonneg
  intro x hx
  obtain ⟨b, _, rfl⟩ := List.mem_map.mp hx
  positivity

theorem calculateConsistencyBonus_nonneg (l : List Bool) :
    0 ≤ calculateConsistencyBonus l := by
  unfold calculateConsistencyBonus
  split_ifs
  · exact le_refl 0
  · have h0 : (0 : ℚ) ≤ max 0 (1 - windowVariance (l.drop (l.length - 10)) * 4) :=
      le_max_left 0 _
    nlinarith

theorem calculateConsistencyBonus_le (l : List Bool) :
    calculateConsistencyBonus l ≤ 0.05 := by
  unfold calculateConsistencyBonus
  split_ifs
  · norm_num
  · have hv := windowVariance_nonneg (l.drop (l.length - 10))
    have h1 : max 0 (1 - windowVariance (l.drop (l.length - 10)) * 4) ≤ 1 :=
      max_le (by norm_num) (by nlinarith)
    have h0 : (0 : ℚ) ≤ max 0 (1 - windowVariance (l.drop (l.length - 10)) * 4) :=
      le_max_left 0 _
    nlinarith

theorem baseScore_nonneg (s : LetterStats) (h : 0 ≤ s.streak) :
    0 ≤ baseScore s := by
  unfold baseScore
  have h1 := calculateAccuracy_nonneg s
  have h2 := calculateSpeedScore_nonneg s.avg_response_time
  have h3 := calculateStreakBonus_nonneg h
  have h4 := calculateConsistencyBonus_nonneg s.recent_results
  linarith

theorem calculateSkillScore_nonneg (s : LetterStats) (h : 0 ≤ s.streak) :
    0 ≤ calculateSkillScore s := by
  unfold calculateSkillScore
  split_ifs
  · exact le_refl 0
  · exact round3_nonneg (le_min (by norm_num) (baseScore_nonneg s h))

theorem calculateSkillScore_le_one (s : LetterStats) :
    calculateSkillScore s ≤ 1 := by
  unfold calculateSkillScore
  split_ifs
  · norm_num
  · exact round3_le_one (min_le_left 1 _)

theorem ciMargin_nonneg (s : LetterStats) : 0 ≤ ciMargin s := by
  unfold ciMargin CONFIDENCE_Z_SCORE
  have := Rat.sqrt_nonneg
    (max 0 ((calculateAccuracy s * (1 - calculateAccuracy s)) / (s.attempts : ℚ)))
  nlinarith

/-! ## Scenario evaluations -/

theorem baseScore_scenario1 : baseScore scenario1 = 49/60 := by
  norm_num [baseScore, calculateAccuracy, calculateSpeedScore, calculateStreakBonus,
    calculateConsistencyBonus, windowVariance, countTrue, scenario1,
    MAX_RESPONSE_TIME, List.filter, min_def, max_def]

theorem skillScore_scenario1 : calculateSkillScore scenario1 = 817/1000 := by
  unfold calculateSkillScore
  rw [if_neg (by norm_num [scenario1]), baseScore_scenario1,
    show min (1 : ℚ) (49/60) = 49/60 by norm_num [min_def],
    round3_eq (z := 817) (by norm_num) (by norm_num)]
  norm_num

theorem masteryLevel_scenario1 : calculateMasteryLevel scenario1 = "learning" := by
  unfold calculateMasteryLevel
  rw [if_neg (by norm_num [scenario1, MIN_ATTEMPTS_FOR_MASTERY])]
  simp only [skillScore_scenario1]
  norm_num [MASTERY_HIGH, MASTERY_MID]

theorem baseScore_scenario2 : baseScore scenario2 = 263/300 := by
  norm_num [baseScore, calculateAccuracy, calculateSpeedScore, calculateStreakBonus,
    calculateConsistencyBonus, windowVariance, countTrue, scenario2,
    MAX_RESPONSE_TIME, List.filter, min_def, max_def]

theorem skillScore_scenario2 : calculateSkillScore scenario2 = 877/1000 := by
  unfold calculateSkillScore
  rw [if_neg (by norm_num [scenario2]), baseScore_scenario2,
    show min (1 : ℚ) (263/300) = 263/300 by norm_num [min_def],
    round3_eq (z := 877) (by norm_num) (by norm_num)]
  norm_num

theorem masteryLevel_scenario2 : calculateMasteryLevel scenario2 = "mastered" := by
  unfold calculateMasteryLevel
  rw [if_neg (by norm_num [scenario2, MIN_ATTEMPTS_FOR_MASTERY])]
  simp only [skillScore_scenario2]
  norm_num [MASTERY_HIGH]

/-! ## The claims -/

/-- C1: on `{attempts:10, correct:9, avg_response_time:2.0, streak:3,
recent_results:[true×10]}` with `MAX_RESPONSE_TIME = 6.0`,
`calculateSkillScore` returns `0.817` and `calculateMasteryLevel` returns
`"learning"`; with `correct = 10` instead, they return `0.877` and
`"mastered"`. -/
theorem claim_C1 :
    calculateSkillScore scenario1 = 0.817 ∧
    calculateMasteryLevel scenario1 = "learning" ∧
    calculateSkillScore scenario2 = 0.877 ∧
    calculateMasteryLevel scenario2 = "mastered" := by
  refine ⟨?_, masteryLevel_scenario1, ?_, masteryLevel_scenario2⟩
  · rw [skillScore_scenario1]; norm_num
  · rw [skillScore_scenario2]; norm_num

/-- C2: whenever `attempts = 0`, whatever the other fields hold,
`calculateAccuracy` returns `0`, `calculateSkillScore` returns `0` and
`calculateMasteryLevel` returns `"learning"`. -/
theorem claim_C2 (s : LetterStats) (h : s.attempts = 0) :
    calculateAccuracy s = 0 ∧ calculateSkillScore s = 0 ∧
    calculateMasteryLevel s = "learning" := by
  refine ⟨?_, ?_, ?_⟩
  · unfold calculateAccuracy; rw [if_pos h]
  · unfold calculateSkillScore; rw [if_pos h]
  · unfold calculateMasteryLevel
    rw [if_pos (by rw [h]; decide)]

theorem claim_C2_witness :
    calculateAccuracy {} = 0 ∧ calculateSkillScore {} = 0 ∧
    calculateMasteryLevel {} = "learning" :=
  claim_C2 {} rfl

theorem calculateAccuracy_mono (s : LetterStats) {c1 c2 : ℤ} (h0 : 0 ≤ c1)
    (h : c1 ≤ c2) :
    calculateAccuracy { s with correct := c1 } ≤
      calculateAccuracy { s with correct := c2 } := by
  unfold calculateAccuracy
  show (if s.attempts = 0 then (0 : ℚ)
      else min 1 (max 0 ((c1 : ℚ) / (s.attempts : ℚ)))) ≤
    (if s.attempts = 0 then (0 : ℚ)
      else min 1 (max 0 ((c2 : ℚ) / (s.attempts : ℚ))))
  split_ifs with ha
  · exact le_refl 0
  · rcases lt_trichotomy s.attempts 0 with hneg | hz | hpos
    · have hq : (s.attempts : ℚ) < 0 := by exact_mod_cast hneg
      have e1 : max 0 ((c1 : ℚ) / (s.attempts : ℚ)) = 0 := by
        apply max_eq_left
        apply div_nonpos_of_nonneg_of_nonpos (by exact_mod_cast h0) (le_of_lt hq)
      have e2 : max 0 ((c2 : ℚ) / (s.attempts : ℚ)) = 0 := by
        apply max_eq_left
        apply div_nonpos_of_nonneg_of_nonpos
          (by exact_mod_cast le_trans h0 h) (le_of_lt hq)
      rw [e1, e2]
    · exact absurd hz ha
    · have hq : (0 : ℚ) < (s.attempts : ℚ) := by exact_mod_cast hpos
      have hc : (c1 : ℚ) ≤ (c2 : ℚ) := by exact_mod_cast h
      exact min_le_min (le_refl 1)
        (max_le_max (le_refl 0) (by gcongr))

theorem baseScore_mono (s : LetterStats) {c1 c2 : ℤ} (h0 : 0 ≤ c1) (h : c1 ≤ c2) :
    baseScore { s with correct := c1 } ≤ baseScore { s with correct := c2 } := by
  unfold baseScore
  have hacc := calculateAccuracy_mono s h0 h
  show 0.6 * calculateAccuracy { s with correct := c1 } +
      0.25 * calculateSpeedScore s.avg_response_time +
      calculateStreakBonus s.streak + calculateConsistencyBonus s.recent_results ≤
    0.6 * calculateAccuracy { s with correct := c2 } +
      0.25 * calculateSpeedScore s.avg_response_time +
      calculateStreakBonus s.streak + calculateConsistencyBonus s.recent_results
  linarith

theorem calculateSkillScore_mono (s : LetterStats) {c1 c2 : ℤ} (h0 : 0 ≤ c1)
    (h : c1 ≤ c2) :
    calculateSkillScore { s with correct := c1 } ≤
      calculateSkillScore { s with correct := c2 } := by
  unfold calculateSkillScore
  show (if s.attempts = 0 then (0 : ℚ)
      else round3 (min 1 (baseScore { s with correct := c1 }))) ≤
    (if s.attempts = 0 then (0 : ℚ)
      else round3 (min 1 (baseScore { s with correct := c2 })))
  split_ifs
  · exact le_refl 0
  · exact round3_mono (min_le_min (le_refl 1) (baseScore_mono s h0 h))

theorem calculateProbabilityCorrect_mono (s : LetterStats) {c1 c2 : ℤ}
    (_h0 : 0 ≤ c1) (h : c1 ≤ c2) :
    calculateProbabilityCorrect { s with correct := c1 } ≤
      calculateProbabilityCorrect { s with correct := c2 } := by
  unfold calculateProbabilityCorrect
  apply round3_mono
  set a : ℚ := max 0 (s.attempts : ℚ) with ha
  have ha0 : 0 ≤ a := le_max_left 0 _
  have key : ∀ c : ℚ, min c a + 1 + (a - min c a + 1) = a + 2 := by
    intro c; ring
  show (min (max 0 (c1 : ℚ)) a + 1) /
      (min (max 0 (c1 : ℚ)) a + 1 + (a - min (max 0 (c1 : ℚ)) a + 1)) ≤
    (min (max 0 (c2 : ℚ)) a + 1) /
      (min (max 0 (c2 : ℚ)) a + 1 + (a - min (max 0 (c2 : ℚ)) a + 1))
  rw [key, key]
  have hc : (c1 : ℚ) ≤ (c2 : ℚ) := by exact_mod_cast h
  have hnum : min (max 0 (c1 : ℚ)) a ≤ min (max 0 (c2 : ℚ)) a :=
    min_le_min (max_le_max (le_refl 0) hc) (le_refl a)
  have hden : (0 : ℚ) < a + 2 := by linarith
  gcongr

/-- C3: with `attempts` and all other fields fixed, increasing `correct` (over
the non-negative integers) never decreases `calculateAccuracy`,
`calculateSkillScore`, or `calculateProbabilityCorrect`. -/
theorem claim_C3 (s : LetterStats) (c1 c2 : ℤ) (h0 : 0 ≤ c1) (h : c1 ≤ c2) :
    calculateAccuracy { s with correct := c1 } ≤
      calculateAccuracy { s with correct := c2 } ∧
    calculateSkillScore { s with correct := c1 } ≤
      calculateSkillScore { s with correct := c2 } ∧
    calculateProbabilityCorrect { s with correct := c1 } ≤
      calculateProbabilityCorrect { s with correct := c2 } :=
  ⟨calculateAccuracy_mono s h0 h, calculateSkillScore_mono s h0 h,
    calculateProbabilityCorrect_mono s h0 h⟩

theorem claim_C3_witness :
    calculateAccuracy { w3 with correct := 1 } ≤
      calculateAccuracy { w3 with correct := 2 } ∧
    calculateSkillScore { w3 with correct := 1 } ≤
      calculateSkillScore { w3 with correct := 2 } ∧
    calculateProbabilityCorrect { w3 with correct := 1 } ≤
      calculateProbabilityCorrect { w3 with correct := 2 } :=
  claim_C3 w3 1 2 (by decide) (by decide)

theorem trendPoints_of_blank {s : LetterStats} (h : s.trend = "") :
    trendPoints s = 0 := by
  unfold trendPoints
  rw [h, if_neg (by decide), if_neg ?_]
  rintro ⟨hs, -⟩
  exact absurd hs (by decide)

/-- C4, counterexample: `calculateSelectionPriority` reads the wall clock
(`Date.now()`), so two calls on the same unmodified stats record and the same
`userDifficulty`, made at different times, can return different outputs: the
record of `c4Stats` scores `20` at time `0` but `45` once overdue at time
`259200`. -/
theorem claim_C4_counterexample :
    calculateSelectionPriority c4Stats 0.5 0 ≠
      calculateSelectionPriority c4Stats 0.5 259200 := by
  have hr : ∀ t : ℚ, retentionPoints c4Stats t = 0 := by
    intro t
    norm_num [retentionPoints, retentionOf, c4Stats]
  have h1 : calculateSelectionPriority c4Stats 0.5 0 = 20 := by
    unfold calculateSelectionPriority
    rw [hr, trendPoints_of_blank (by decide)]
    norm_num [urgencyPoints, difficultyPoints, recencyPoints, c4Stats, min_def]
  have h2 : calculateSelectionPriority c4Stats 0.5 259200 = 45 := by
    unfold calculateSelectionPriority
    rw [hr, trendPoints_of_blank (by decide)]
    norm_num [urgencyPoints, difficultyPoints, recencyPoints, c4Stats, min_def]
  rw [h1, h2]
  norm_num

/-- C4, amended: every scoring function is deterministic in its arguments
*including the clock reading*: calling it twice on the same unmodified stats
record, the same configuration and the same current time yields identical
output; but `calculateRetentionProbability` and `calculateSelectionPriority`
additionally depend on the current time (`Date.now()`), not only on the stats
record (see the counterexample). -/
theorem claim_C4_amended (s1 s2 : LetterStats) (ud now : ℚ) (h : s1 = s2) :
    calculateAccuracy s1 = calculateAccuracy s2 ∧
    calculateSpeedScore s1.avg_response_time = calculateSpeedScore s2.avg_response_time ∧
    calculateStreakBonus s1.streak = calculateStreakBonus s2.streak ∧
    calculateConsistencyBonus s1.recent_results = calculateConsistencyBonus s2.recent_results ∧
    calculateSkillScore s1 = calculateSkillScore s2 ∧
    calculateMasteryLevel s1 = calculateMasteryLevel s2 ∧
    calculateProbabilityCorrect s1 = calculateProbabilityCorrect s2 ∧
    calculateConfidenceInterval s1 = calculateConfidenceInterval s2 ∧
    calculateRetentionProbability s1.last_seen s1.easiness_factor s1.repetition now =
      calculateRetentionProbability s2.last_seen s2.easiness_factor s2.repetition now ∧
    calculateSelectionPriority s1 ud now = calculateSelectionPriority s2 ud now := by
  subst h
  exact ⟨rfl, rfl, rfl, rfl, rfl, rfl, rfl, rfl, rfl, rfl⟩

theorem claim_C4_witness :
    calculateAccuracy c4Stats = calculateAccuracy c4Stats ∧
    calculateSpeedScore c4Stats.avg_response_time = calculateSpeedScore c4Stats.avg_response_time ∧
    calculateStreakBonus c4Stats.streak = calculateStreakBonus c4Stats.streak ∧
    calculateConsistencyBonus c4Stats.recent_results = calculateConsistencyBonus c4Stats.recent_results ∧
    calculateSkillScore c4Stats = calculateSkillScore c4Stats ∧
    calculateMasteryLevel c4Stats = calculateMasteryLevel c4Stats ∧
    calculateProbabilityCorrect c4Stats = calculateProbabilityCorrect c4Stats ∧
    calculateConfidenceInterval c4Stats = calculateConfidenceInterval c4Stats ∧
    calculateRetentionProbability c4Stats.last_seen c4Stats.easiness_factor c4Stats.repetition 0 =
      calculateRetentionProbability c4Stats.last_seen c4Stats.easiness_factor c4Stats.repetition 0 ∧
    calculateSelectionPriority c4Stats 0.5 0 = calculateSelectionPriority c4Stats 0.5 0 :=
  claim_C4_amended c4Stats c4Stats 0.5 0 rfl

theorem calculateAccuracy_ci100 : calculateAccuracy ci100 = 4/5 := by
  norm_num [calculateAccuracy, ci100, min_def, max_def]

theorem ciMargin_ci100 : ciMargin ci100 = 49/625 := by
  unfold ciMargin
  rw [calculateAccuracy_ci100,
    show max 0 ((4/5 * (1 - 4/5)) / ((ci100.attempts : ℤ) : ℚ)) = 1/625 by
      norm_num [ci100, max_def],
    show (1/625 : ℚ) = (1/25) * (1/25) by norm_num,
    Rat.sqrt_eq, abs_of_nonneg (by norm_num : (0 : ℚ) ≤ 1/25)]
  norm_num [CONFIDENCE_Z_SCORE]

/-- C5: every stats record with `attempts < 2` gets the maximally uncertain
interval `{lower: 0, upper: 1}`, and the record `{attempts: 100, correct: 80}`
gets `{lower: 0.722, upper: 0.878}` (z = 1.96, clamped to `[0,1]`, rounded to
3 decimal places). -/
theorem claim_C5 :
    (∀ s : LetterStats, s.attempts < 2 → calculateConfidenceInterval s = ⟨0, 1⟩) ∧
    calculateConfidenceInterval ci100 = ⟨0.722, 0.878⟩ := by
  constructor
  · intro s h
    unfold calculateConfidenceInterval
    rw [if_pos h]
  · unfold calculateConfidenceInterval
    rw [if_neg (by norm_num [ci100]), calculateAccuracy_ci100, ciMargin_ci100,
      show max 0 ((4:ℚ)/5 - 49/625) = 451/625 by norm_num [max_def],
      show min 1 ((4:ℚ)/5 + 49/625) = 549/625 by norm_num [min_def],
      round3_eq (z := 722) (by norm_num) (by norm_num),
      round3_eq (z := 878) (by norm_num) (by norm_num)]
    norm_num

theorem claim_C5_witness :
    calculateConfidenceInterval { attempts := 1 } = ⟨0, 1⟩ :=
  claim_C5.1 { attempts := 1 } (by decide)

/-- C6, counterexample: the claim's urgency formula is wrong for records whose
`next_review` is `0` (a falsy timestamp): at `now = 86400 ≥ next_review = 0`
the claim predicts an urgency contribution of `min(30, 15 + 1*5) = 20`, but the
source's `stats.next_review &&` guard skips the urgency block, so the total
priority is `20` (all from difficulty match) and not the predicted `40`. -/
theorem claim_C6_counterexample :
    c6Stats.next_review ≤ (86400 : ℚ) ∧
    calculateSelectionPriority c6Stats 0.5 86400 ≠
      min 30 (15 + (((86400 : ℚ) - c6Stats.next_review) / 86400) * 5) +
        retentionPoints c6Stats 86400 + trendPoints c6Stats +
        difficultyPoints c6Stats 0.5 + recencyPoints c6Stats 86400 := by
  have hr : retentionPoints c6Stats 86400 = 0 := by
    norm_num [retentionPoints, retentionOf, calculateRetentionProbability, jsExp,
      c6Stats, min_def, max_def]
  have ht : trendPoints c6Stats = 0 := trendPoints_of_blank (by decide)
  have hd : difficultyPoints c6Stats 0.5 = 20 := by
    norm_num [difficultyPoints, c6Stats]
  have hrec : recencyPoints c6Stats 86400 = 0 := by
    norm_num [recencyPoints, c6Stats, min_def]
  have hu : urgencyPoints c6Stats 86400 = 0 := by
    norm_num [urgencyPoints, c6Stats]
  constructor
  · norm_num [c6Stats]
  · unfold calculateSelectionPriority
    rw [hr, ht, hd, hrec, hu,
      show min (30 : ℚ) (15 + (((86400 : ℚ) - c6Stats.next_review) / 86400) * 5) = 20 by
        norm_num [c6Stats, min_def]]
    norm_num

/-- C6, amended: the total priority decomposes into the five additive
components, and the review-urgency component equals
`min(30, 15 + overdue_days*5)` when `now >= next_review` and `0` otherwise
*provided `next_review` is non-zero (present)*; when `next_review` is `0`
(absent or the falsy epoch timestamp) the component is `0` even if
`now >= next_review`. -/
theorem claim_C6_amended (s : LetterStats) (ud now : ℚ) :
    calculateSelectionPriority s ud now =
      urgencyPoints s now + retentionPoints s now + trendPoints s +
        difficultyPoints s ud + recencyPoints s now ∧
    (s.next_review ≠ 0 →
      urgencyPoints s now =
        if s.next_review ≤ now then
          min 30 (15 + ((now - s.next_review) / 86400) * 5)
        else 0) ∧
    (s.next_review = 0 → urgencyPoints s now = 0) := by
  refine ⟨rfl, ?_, ?_⟩
  · intro h
    unfold urgencyPoints
    by_cases hle : s.next_review ≤ now
    · rw [if_pos ⟨h, hle⟩, if_pos hle]
    · rw [if_neg (fun hc => hle hc.2), if_neg hle]
  · intro h
    unfold urgencyPoints
    rw [if_neg (fun hc => hc.1 h)]

theorem claim_C6_witness :
    calculateSelectionPriority w6 0.5 172800 =
      urgencyPoints w6 172800 + retentionPoints w6 172800 + trendPoints w6 +
        difficultyPoints w6 0.5 + recencyPoints w6 172800 ∧
    urgencyPoints w6 172800 =
      (if w6.next_review ≤ (172800 : ℚ) then
        min 30 (15 + (((172800 : ℚ) - w6.next_review) / 86400) * 5)
      else 0) :=
  ⟨(claim_C6_amended w6 0.5 172800).1,
   (claim_C6_amended w6 0.5 172800).2.1 (by norm_num [w6])⟩

/-- C7: `analyzePerformanceTrend` returns `"insufficient_data"` below 3
entries; otherwise it compares the mean of the last `min(5, n)` entries with
`overall_accuracy` against the thresholds `0.15` / `-0.15`; and whenever the
last five entries are `[true, true, false, true, true]` and the overall
accuracy is `0.5`, it returns `"improving"`. -/
theorem claim_C7 (l : List Bool) (oa : ℚ) :
    (l.length < 3 → analyzePerformanceTrend l oa = "insufficient_data") ∧
    (3 ≤ l.length → analyzePerformanceTrend l oa =
      (if (countTrue (l.drop (l.length - min 5 l.length)) : ℚ) /
            ((l.drop (l.length - min 5 l.length)).length : ℚ) - oa > 0.15 then
        "improving"
      else if (countTrue (l.drop (l.length - min 5 l.length)) : ℚ) /
            ((l.drop (l.length - min 5 l.length)).length : ℚ) - oa < -0.15 then
        "declining"
      else "stable")) ∧
    (l.drop (l.length - 5) = [true, true, false, true, true] → oa = 0.5 →
      analyzePerformanceTrend l oa = "improving") := by
  refine ⟨?_, ?_, ?_⟩
  · intro h
    unfold analyzePerformanceTrend
    rw [if_pos h]
  · intro h
    unfold analyzePerformanceTrend
    rw [if_neg (not_lt.mpr h)]
    rfl
  · intro hdrop hoa
    have hlen : 5 ≤ l.length := by
      by_contra hlt
      push_neg at hlt
      have h0 : l.length - 5 = 0 := Nat.sub_eq_zero_of_le (le_of_lt hlt)
      rw [h0, List.drop_zero] at hdrop
      rw [hdrop] at hlt
      exact absurd hlt (by norm_num)
    unfold analyzePerformanceTrend
    rw [if_neg (not_lt.mpr (by omega)),
      show min 5 l.length = 5 from min_eq_left hlen]
    dsimp only
    rw [hdrop, hoa]
    norm_num [countTrue, List.filter, TREND_THRESHOLD_IMPROVING]

theorem claim_C7_witness :
    analyzePerformanceTrend [true, true, false, true, true] 0.5 = "improving" :=
  (claim_C7 [true, true, false, true, true] 0.5).2.2 rfl rfl

/-- C8, counterexample: the skill-score range claim fails on a malformed
record with a negative `streak` count: `{attempts: 1, correct: 0,
avg_response_time: 6, streak: -1}` gets the negative streak "bonus"
`min(0.1, -0.02) = -0.02`, every other component is `0`, and the skill score
is `-0.02 < 0`. -/
theorem claim_C8_counterexample : calculateSkillScore c8Stats < 0 := by
  have hb : baseScore c8Stats = -1/50 := by
    norm_num [baseScore, calculateAccuracy, calculateSpeedScore,
      calculateStreakBonus, calculateConsistencyBonus, c8Stats,
      MAX_RESPONSE_TIME, min_def, max_def]
  unfold calculateSkillScore
  rw [if_neg (by norm_num [c8Stats]), hb,
    show min (1 : ℚ) (-1/50) = -1/50 by norm_num [min_def],
    round3_eq (z := -20) (by norm_num) (by norm_num)]
  norm_num

/-- C8, amended: for every stats record — including malformed ones with
negative `attempts`/`correct` counts or `correct > attempts` —
`calculateAccuracy` lies in `[0,1]` and the confidence interval satisfies
`lower ≤ upper`; and `calculateSkillScore` lies in `[0,1]` provided the
`streak` count is non-negative (a negative `streak` can drive it below `0`,
see the counterexample). -/
theorem claim_C8_amended (s : LetterStats) :
    (0 ≤ calculateAccuracy s ∧ calculateAccuracy s ≤ 1 ∧
      (calculateConfidenceInterval s).lower ≤ (calculateConfidenceInterval s).upper) ∧
    (0 ≤ s.streak → 0 ≤ calculateSkillScore s ∧ calculateSkillScore s ≤ 1) := by
  constructor
  · refine ⟨calculateAccuracy_nonneg s, calculateAccuracy_le_one s, ?_⟩
    unfold calculateConfidenceInterval
    split_ifs
    · norm_num
    · have hm := ciMargin_nonneg s
      have hp0 := calculateAccuracy_nonneg s
      have hp1 := calculateAccuracy_le_one s
      show round3 (max 0 (calculateAccuracy s - ciMargin s)) ≤
        round3 (min 1 (calculateAccuracy s + ciMargin s))
      apply round3_mono
      apply le_min
      · exact max_le (by norm_num) (by linarith)
      · exact max_le (by linarith) (by linarith)
  · intro hst
    exact ⟨calculateSkillScore_nonneg s hst, calculateSkillScore_le_one s⟩

theorem claim_C8_witness :
    (0 ≤ calculateAccuracy w8 ∧ calculateAccuracy w8 ≤ 1 ∧
      (calculateConfidenceInterval w8).lower ≤ (calculateConfidenceInterval w8).upper) ∧
    (0 ≤ calculateSkillScore w8 ∧ calculateSkillScore w8 ≤ 1) :=
  ⟨(claim_C8_amended w8).1, (claim_C8_amended w8).2 (by decide)⟩

/-- C9: for every non-empty letters array, the learning velocity returned by
the insights aggregator is the number of letters classified `"mastered"`
divided by the total number of letters practiced (the array length). -/
theorem claim_C9 (data : List LetterStats) (h : data ≠ []) :
    learningVelocity data =
      (masteryDistribution data "mastered" : ℚ) / (data.length : ℚ) := by
  unfold learningVelocity
  rw [if_neg h]
  congr 1
  have hpos : 0 < data.length := List.length_pos.mpr h
  have h1 : (1 : ℚ) ≤ (data.length : ℚ) := by exact_mod_cast hpos
  exact max_eq_right h1

theorem claim_C9_witness :
    learningVelocity [scenario2] =
      (masteryDistribution [scenario2] "mastered" : ℚ) / (([scenario2] : List LetterStats).length : ℚ) :=
  claim_C9 [scenario2] (by simp)

theorem urgencyPoints_mem (s : LetterStats) (now : ℚ) :
    0 ≤ urgencyPoints s now ∧ urgencyPoints s now ≤ 30 := by
  unfold urgencyPoints
  split_ifs with h
  · have hod : (0 : ℚ) ≤ (now - s.next_review) / 86400 :=
      div_nonneg (by linarith [h.2]) (by norm_num)
    exact ⟨le_min (by norm_num) (by nlinarith), min_le_left _ _⟩
  · norm_num

theorem calculateRetentionProbability_mem (a b : ℚ) (r : ℤ) (now : ℚ) :
    0 ≤ calculateRetentionProbability a b r now ∧
    calculateRetentionProbability a b r now ≤ 1 := by
  unfold calculateRetentionProbability
  dsimp only
  exact ⟨le_min (by norm_num) (le_max_left 0 _), min_le_left _ _⟩

theorem retentionOf_mem (s : LetterStats) (now : ℚ) (h0 : 0 ≤ s.retention)
    (h1 : s.retention ≤ 1) :
    0 ≤ retentionOf s now ∧ retentionOf s now ≤ 1 := by
  unfold retentionOf
  split_ifs
  · exact ⟨h0, h1⟩
  all_goals exact calculateRetentionProbability_mem _ _ _ _

theorem retentionPoints_mem (s : LetterStats) (now : ℚ) (h0 : 0 ≤ s.retention)
    (h1 : s.retention ≤ 1) :
    0 ≤ retentionPoints s now ∧ retentionPoints s now ≤ 25 := by
  obtain ⟨hr0, hr1⟩ := retentionOf_mem s now h0 h1
  unfold retentionPoints
  split_ifs
  · exact ⟨by nlinarith, by nlinarith⟩
  · norm_num

theorem trendPoints_mem (s : LetterStats) :
    0 ≤ trendPoints s ∧ trendPoints s ≤ 15 := by
  unfold trendPoints
  split_ifs <;> norm_num

theorem difficultyPoints_mem (s : LetterStats) (ud : ℚ) (hd0 : 0 ≤ s.difficulty)
    (hd1 : s.difficulty ≤ 1) (hu0 : 0 ≤ ud) (hu1 : ud ≤ 1) :
    0 ≤ difficultyPoints s ud ∧ difficultyPoints s ud ≤ 20 := by
  unfold difficultyPoints
  have hd : 0 ≤ (if s.difficulty ≠ 0 then s.difficulty else 0.5) ∧
      (if s.difficulty ≠ 0 then s.difficulty else 0.5) ≤ 1 := by
    split_ifs
    · exact ⟨hd0, hd1⟩
    · norm_num
  have habs : |(if s.difficulty ≠ 0 then s.difficulty else 0.5) - ud| ≤ 1 :=
    abs_le.mpr ⟨by linarith [hd.1], by linarith [hd.2]⟩
  have habs0 : 0 ≤ |(if s.difficulty ≠ 0 then s.difficulty else 0.5) - ud| :=
    abs_nonneg _
  constructor <;> nlinarith

theorem recencyPoints_mem (s : LetterStats) (now : ℚ) (hls : s.last_seen ≤ now) :
    0 ≤ recencyPoints s now ∧ recencyPoints s now ≤ 10 := by
  unfold recencyPoints
  split_ifs with h
  · have hh : (0 : ℚ) ≤ (now - s.last_seen) / 3600 :=
      div_nonneg (by linarith) (by norm_num)
    exact ⟨le_min (by norm_num) (by nlinarith), min_le_left _ _⟩
  · norm_num

/-- C10: whenever the `retention` and `difficulty` fields lie in `[0,1]`,
`last_seen ≤ now`, and the user difficulty lies in `[0,1]`, the five additive
components of `calculateSelectionPriority` are individually non-negative and
bounded by `30`, `25`, `15`, `20`, `10` respectively, and the total priority
lies in `[0, 100]`. -/
theorem claim_C10 (s : LetterStats) (ud now : ℚ)
    (hr0 : 0 ≤ s.retention) (hr1 : s.retention ≤ 1)
    (hd0 : 0 ≤ s.difficulty) (hd1 : s.difficulty ≤ 1)
    (hls : s.last_seen ≤ now) (hu0 : 0 ≤ ud) (hu1 : ud ≤ 1) :
    (0 ≤ urgencyPoints s now ∧ urgencyPoints s now ≤ 30) ∧
    (0 ≤ retentionPoints s now ∧ retentionPoints s now ≤ 25) ∧
    (0 ≤ trendPoints s ∧ trendPoints s ≤ 15) ∧
    (0 ≤ difficultyPoints s ud ∧ difficultyPoints s ud ≤ 20) ∧
    (0 ≤ recencyPoints s now ∧ recencyPoints s now ≤ 10) ∧
    0 ≤ calculateSelectionPriority s ud now ∧
    calculateSelectionPriority s ud now ≤ 100 := by
  obtain ⟨u0, u1⟩ := urgencyPoints_mem s now
  obtain ⟨r0, r1⟩ := retentionPoints_mem s now hr0 hr1
  obtain ⟨t0, t1⟩ := trendPoints_mem s
  obtain ⟨d0, d1⟩ := difficultyPoints_mem s ud hd0 hd1 hu0 hu1
  obtain ⟨e0, e1⟩ := recencyPoints_mem s now hls
  refine ⟨⟨u0, u1⟩, ⟨r0, r1⟩, ⟨t0, t1⟩, ⟨d0, d1⟩, ⟨e0, e1⟩, ?_, ?_⟩ <;>
    unfold calculateSelectionPriority <;> linarith

theorem claim_C10_witness :
    (0 ≤ urgencyPoints w6 172800 ∧ urgencyPoints w6 172800 ≤ 30) ∧
    (0 ≤ retentionPoints w6 172800 ∧ retentionPoints w6 172800 ≤ 25) ∧
    (0 ≤ trendPoints w6 ∧ trendPoints w6 ≤ 15) ∧
    (0 ≤ difficultyPoints w6 0.5 ∧ difficultyPoints w6 0.5 ≤ 20) ∧
    (0 ≤ recencyPoints w6 172800 ∧ recencyPoints w6 172800 ≤ 10) ∧
    0 ≤ calculateSelectionPriority w6 0.5 172800 ∧
    calculateSelectionPriority w6 0.5 172800 ≤ 100 :=
  claim_C10 w6 0.5 172800 (by norm_num [w6]) (by norm_num [w6])
    (by norm_num [w6]) (by norm_num [w6]) (by norm_num [w6])
    (by norm_num) (by norm_num)

end DotSense
